import Mathlib

/-!
Verification of the Boone (2010) preconsolidation-pressure estimator from
`pysimgap/boone.py` (class `Boone`, method `getSigmaP`), shallowly embedded
over exact real arithmetic.

Modelling conventions:
* Stress / void-ratio samples are real numbers; `np.log10` is `Real.logb 10`,
  `10 ** x` is the real power `rpow`.
* `numpy.polynomial.polynomial.polyfit` is modelled as the least-squares
  polynomial fit, i.e. the solution of the normal equations, written out by
  Cramer's rule.  Wherever the normal matrix is invertible (for this code:
  at least `deg + 1` distinct abscissae) this is exactly the value numpy
  computes; in rank-deficient cases numpy returns a minimum-norm solution
  while the Cramer quotients involve division by a zero determinant (which
  Lean evaluates with the `x / 0 = 0` convention) - both are junk values and
  no theorem below depends on which junk is produced.
* The `Data` collaborator (attribute `cleaned`, scalars `sigmaV`, `idxCr`,
  and the lookup `findStressIdx`) lives outside this module; the parts of
  its behaviour that the claims need are modelled from the spec where noted.
* The method can genuinely raise only inside numpy / pandas: `polyfit` on an
  empty vector raises, and `.iloc[1]` on a series shorter than 2 raises.
  These are the `Except.error` branches.  The spec's error taxonomy
  (`DomainError`, `InvalidRangeError`, `NoIntersectionError`) is included in
  the error type so that the spec's claims are statable; the translated code
  never produces those constructors, because `boone.py` contains no `raise`
  statement and defines no error class.
* The matplotlib figure assembly (lines 120-149 of `boone.py`) only consumes
  the numeric quantities computed before it; the embedded result record
  carries exactly those numeric outputs.
-/

namespace PySimGap

noncomputable section

/-- Real base-10 logarithm, the model of `np.log10` on a positive float.
(For a non-positive argument numpy yields `nan`/`-inf` with a warning and
does not raise; `Real.logb` likewise yields a junk value there.) -/
def log10 (x : ℝ) : ℝ := Real.logb 10 x

/-- Normalisation of a single Python slice boundary for a sequence of length
`n`: a negative index counts from the end and is clamped below by `0`; a
non-negative index is clamped above by `n`. -/
def pyIdx (n : ℕ) (i : Int) : ℕ :=
  if i < 0 then ((n : Int) + i).toNat else min i.toNat n

/-- Python slicing `l[a:b]` with step 1; `b = none` means an omitted stop
boundary (slice to the end). -/
def pySlice {α : Type} (l : List α) (a : Int) (b : Option Int) : List α :=
  let s := pyIdx l.length a
  let e := match b with
    | none => l.length
    | some j => pyIdx l.length j
  (l.take e).drop s

/-- Model of `pandas.Series.max`.  (On an empty series pandas errors; the
method only evaluates `max` when `range2fitNCL` is supplied, and no claim
exercises that call on an empty dataset, so the empty case is given the
harmless value `0`.) -/
def pyMax : List ℝ → ℝ
  | [] => 0
  | x :: xs => xs.foldl max x

/-- Modelled from the spec: the index lookup `findStressIdx` of the `Data`
collaborator is not part of `boone.py` (src has only `boone.py`).  The spec
describes it as "lookup of the dataset index nearest a given stress value"
and, in section 9, says the tie-break policy ("nearest vs.
first-equal-or-greater") is to be fixed explicitly; we fix the
first-index-with-stress-greater-or-equal policy.  On an exact match in a
strictly increasing series every policy returns the matching index, which is
the only situation the claims below exercise. -/
def findIdxGe : List ℝ → ℝ → ℕ
  | [], _ => 0
  | x :: xs, s => if s ≤ x then 0 else findIdxGe xs s + 1

/-- The data-access collaborator consumed by `Boone` (spec section 6): the
cleaned (unload-cycles removed) series of (stress, void ratio) samples, the
in-situ stress `sigmaV` and the recompression slope `idxCr`.  The raw series
is consumed only by the plot rendering and is not modelled. -/
structure Data where
  cleaned : List (ℝ × ℝ)
  sigmaV : ℝ
  idxCr : ℝ

/-- The stress column `cleaned['stress']`. -/
def Data.stresses (d : Data) : List ℝ := d.cleaned.map Prod.fst

/-- Modelled from the spec: see `findIdxGe`. -/
def Data.findStressIdx (d : Data) (s : ℝ) : ℕ := findIdxGe d.stresses s

/-- Sum of `k`-th powers of the abscissae (an entry of the normal matrix). -/
def powSum (xs : List ℝ) (k : ℕ) : ℝ := (xs.map (fun x => x ^ k)).sum

/-- Sum of `x i ^ k * y i` (an entry of the normal right-hand side). -/
def powDot (xs ys : List ℝ) (k : ℕ) : ℝ :=
  (List.zipWith (fun x y => x ^ k * y) xs ys).sum

/-- Degree-1 least-squares fit (model of `polyfit(x, y, deg=1)`), returned
as (intercept, slope), by Cramer's rule on the 2x2 normal equations. -/
def polyfit1 (xs ys : List ℝ) : ℝ × ℝ :=
  let n : ℝ := xs.length
  let s1 := powSum xs 1
  let s2 := powSum xs 2
  let t0 := ys.sum
  let t1 := powDot xs ys 1
  let den := n * s2 - s1 ^ 2
  ((t0 * s2 - s1 * t1) / den, (n * t1 - s1 * t0) / den)

/-- Determinant of a 3x3 matrix, entries row by row. -/
def det3 (a b c d e f g h i : ℝ) : ℝ :=
  a * (e * i - f * h) - b * (d * i - f * g) + c * (d * h - e * g)

/-- Determinant of a 4x4 matrix, entries row by row, by cofactor expansion
along the first row. -/
def det4 (a11 a12 a13 a14 a21 a22 a23 a24 a31 a32 a33 a34 a41 a42 a43 a44 :
    ℝ) : ℝ :=
  a11 * det3 a22 a23 a24 a32 a33 a34 a42 a43 a44
    - a12 * det3 a21 a23 a24 a31 a33 a34 a41 a43 a44
    + a13 * det3 a21 a22 a24 a31 a32 a34 a41 a42 a44
    - a14 * det3 a21 a22 a23 a31 a32 a33 a41 a42 a43

/-- Degree-3 least-squares fit (model of `polyfit(x, y, deg=3)`), returned
as (c0, c1, c2, c3), by Cramer's rule on the 4x4 normal equations. -/
def polyfit3 (xs ys : List ℝ) : ℝ × ℝ × ℝ × ℝ :=
  let n : ℝ := xs.length
  let s1 := powSum xs 1
  let s2 := powSum xs 2
  let s3 := powSum xs 3
  let s4 := powSum xs 4
  let s5 := powSum xs 5
  let s6 := powSum xs 6
  let t0 := ys.sum
  let t1 := powDot xs ys 1
  let t2 := powDot xs ys 2
  let t3 := powDot xs ys 3
  let den := det4 n s1 s2 s3 s1 s2 s3 s4 s2 s3 s4 s5 s3 s4 s5 s6
  (det4 t0 s1 s2 s3 t1 s2 s3 s4 t2 s3 s4 s5 t3 s4 s5 s6 / den,
   det4 n t0 s2 s3 s1 t1 s3 s4 s2 t2 s4 s5 s3 t3 s5 s6 / den,
   det4 n s1 t0 s3 s1 s2 t1 s4 s2 s3 t2 s5 s3 s4 t3 s6 / den,
   det4 n s1 s2 t0 s1 s2 s3 t1 s2 s3 s4 t2 s3 s4 s5 t3 / den)

/-- Evaluation of a degree-1 polynomial given as (c0, c1), the model of
`polyval(x, [c0, c1])`. -/
def polyval2 (c : ℝ × ℝ) (x : ℝ) : ℝ := c.1 + c.2 * x

/-- Evaluation of a degree-3 polynomial given as (c0, c1, c2, c3), the model
of `polyval(x, [c0, c1, c2, c3])`. -/
def polyval4 (c : ℝ × ℝ × ℝ × ℝ) (x : ℝ) : ℝ :=
  c.1 + c.2.1 * x + c.2.2.1 * x ^ 2 + c.2.2.2 * x ^ 3

/-- Arithmetic mean of a list (used by `r2_score`). -/
def meanList (ys : List ℝ) : ℝ := ys.sum / ys.length

/-- Model of `sklearn.metrics.r2_score`:
1 - sum of squared residuals / sum of squared deviations from the mean. -/
def r2Score (yTrue yPred : List ℝ) : ℝ :=
  1 - (List.zipWith (fun t p => (t - p) ^ 2) yTrue yPred).sum /
    ((yTrue.map (fun t => (t - meanList yTrue) ^ 2)).sum)

/-- Error type.  `valueError` and `indexError` are the two genuine raise
points of the translated code (numpy `polyfit` on an empty vector, `.iloc`
out of range).  The remaining constructors are the spec's error taxonomy,
present only so the spec's error-handling claims can be stated; no branch of
the translation produces them. -/
inductive PyErr where
  | valueError
  | indexError
  | domainError
  | invalidRangeError
  | noIntersectionError
  deriving DecidableEq

/-- The numeric outputs of `getSigmaP` (the spec's `Result`): the
preconsolidation pressure and its void ratio, the two fitted curves
(coefficients and R^2), and the reference-line data `eSigmaV`, `eCr`. -/
structure BooneResult where
  sigmaP : ℝ
  eSigmaP : ℝ
  p1 : ℝ × ℝ × ℝ × ℝ
  r2TOP : ℝ
  eSigmaV : ℝ
  p2 : ℝ × ℝ
  r2NCL : ℝ
  eCr : ℝ

/-- TOP (third-order-polynomial) window boundaries, `boone.py` lines 71-78:
without `range2fitTOP` the indices are `floor(n/3)` and `ceil(2n/3)`
(as natural-division expressions); with a range both boundaries go through
`findStressIdx`. -/
def topIdx (d : Data) (rT : Option (ℝ × ℝ)) : Int × Option Int :=
  match rT with
  | none => (((d.cleaned.length / 3 : ℕ) : Int),
      some ((((2 * d.cleaned.length + 2) / 3 : ℕ) : Int)))
  | some r => (((d.findStressIdx r.1 : ℕ) : Int),
      some (((d.findStressIdx r.2 : ℕ) : Int)))

/-- The TOP fit window `cleaned[idxInitTOP : idxEndTOP]` (lines 90, 92). -/
def topWindow (d : Data) (rT : Option (ℝ × ℝ)) : List (ℝ × ℝ) :=
  pySlice d.cleaned (topIdx d rT).1 (topIdx d rT).2

/-- NCL window boundaries, `boone.py` lines 80-87: without `range2fitNCL`
they are `-3` and `None`; with a range the start goes through
`findStressIdx` and the end does too unless the requested end stress fails
`range2fitNCL[1] < cleaned['stress'].max()`, in which case it is `None`. -/
def nclIdx (d : Data) (rN : Option (ℝ × ℝ)) : Int × Option Int :=
  match rN with
  | none => (-3, none)
  | some r => (((d.findStressIdx r.1 : ℕ) : Int),
      if r.2 < pyMax d.stresses then some (((d.findStressIdx r.2 : ℕ) : Int))
      else none)

/-- The NCL fit window `cleaned[idxInitNCL : idxEndNCL]` (lines 102, 104). -/
def nclWindow (d : Data) (rN : Option (ℝ × ℝ)) : List (ℝ × ℝ) :=
  pySlice d.cleaned (nclIdx d rN).1 (nclIdx d rN).2

/-- Cubic fit of a window on (log10 stress, void ratio), line 93. -/
def fitTOPw (w : List (ℝ × ℝ)) : ℝ × ℝ × ℝ × ℝ :=
  polyfit3 (w.map (fun p => log10 p.1)) (w.map Prod.snd)

/-- R^2 of the cubic fit against its own window, lines 94-95. -/
def r2TOPw (w : List (ℝ × ℝ)) : ℝ :=
  r2Score (w.map Prod.snd)
    ((w.map (fun p => log10 p.1)).map (fun x => polyval4 (fitTOPw w) x))

/-- Linear fit of a window on (log10 stress, void ratio), line 105. -/
def fitNCLw (w : List (ℝ × ℝ)) : ℝ × ℝ :=
  polyfit1 (w.map (fun p => log10 p.1)) (w.map Prod.snd)

/-- R^2 of the linear fit against its own window, lines 106-107. -/
def r2NCLw (w : List (ℝ × ℝ)) : ℝ :=
  r2Score (w.map Prod.snd)
    ((w.map (fun p => log10 p.1)).map (fun x => polyval2 (fitNCLw w) x))

/-- The numeric part of `getSigmaP` (lines 89-118) as a function of the two
resolved windows.  The three `Except.error` branches are the places the
Python code genuinely raises, in evaluation order: `polyfit` on an empty TOP
window (line 93), `polyfit` on an empty NCL window (line 105), and
`cleaned['stress'].iloc[1]` on a series shorter than 2 (line 113). -/
def computeFrom (d : Data) (tw nw : List (ℝ × ℝ)) :
    Except PyErr BooneResult :=
  if tw.isEmpty then .error .valueError
  else if nw.isEmpty then .error .valueError
  else if d.cleaned.length < 2 then .error .indexError
  else
    let p1 := fitTOPw tw
    let eSigmaV := polyval4 p1 (log10 d.sigmaV)
    let p2 := fitNCLw nw
    let eCr := eSigmaV - (-d.idxCr * log10 d.sigmaV)
    let sigmaP := (10 : ℝ) ^ ((p2.1 - eCr) / (-d.idxCr - p2.2))
    .ok { sigmaP := sigmaP
          eSigmaP := polyval2 p2 (log10 sigmaP)
          p1 := p1
          r2TOP := r2TOPw tw
          eSigmaV := eSigmaV
          p2 := p2
          r2NCL := r2NCLw nw
          eCr := eCr }

/-- The numeric content of `Boone.getSigmaP`: resolve the two windows and
run the fitting / intersection pipeline. -/
def getSigmaP (d : Data) (rT rN : Option (ℝ × ℝ)) :
    Except PyErr BooneResult :=
  computeFrom d (topWindow d rT) (nclWindow d rN)

/-- The `Boone` object: it wraps the data collaborator, and `getSigmaP`
line 117 assigns the attribute `self.sigmaP`, absent before the first
successful call; the `sigmaP` field records that attribute. -/
structure Boone where
  data : Data
  sigmaP : Option ℝ

/-- `Boone.getSigmaP` as a state-passing method: the returned pair is
(object state after the call, outcome).  On success line 117 stores
`self.sigmaP` before the result is complete; on a raise (which in the code
can only happen before line 117) the object is unchanged. -/
def getSigmaPMethod (b : Boone) (rT rN : Option (ℝ × ℝ)) :
    Boone × Except PyErr BooneResult :=
  match getSigmaP b.data rT rN with
  | .ok r => ({ b with sigmaP := some r.sigmaP }, .ok r)
  | .error e => (b, .error e)

/-- The pair of stress values spanned by the default TOP window (first and
last selected stresses); used to state the default-equivalence claim. -/
def defaultTopSpan (d : Data) : ℝ × ℝ :=
  (d.stresses.getD (d.cleaned.length / 3) 0,
   d.stresses.getD ((2 * d.cleaned.length + 2) / 3 - 1) 0)

/-- The pair of stress values spanned by the default NCL window (first and
last of the last three stresses); used to state the default-equivalence
claim. -/
def defaultNclSpan (d : Data) : ℝ × ℝ :=
  (d.stresses.getD (d.cleaned.length - 3) 0,
   d.stresses.getD (d.cleaned.length - 1) 0)

/-- Whether an `Except` outcome is a success. -/
def exceptIsOk {ε α : Type} : Except ε α → Bool
  | .ok _ => true
  | .error _ => false

/-- A concrete 13-point dataset for witnesses: stresses are the powers
10^(i-6) for i = 0..12, so every base-10 logarithm is an exact integer.  On
the default TOP window (indices 4-8, log-stresses -2..2) the void ratios lie
exactly on the cubic 15 - x + x^2, and on the default NCL window (the last
three points, log-stresses 4..6) they lie exactly on the line 14 - x. -/
def demoPts : List (ℝ × ℝ) :=
  [(1 / 1000000, 20), (1 / 100000, 19), (1 / 10000, 18), (1 / 1000, 17),
   (1 / 100, 21), (1 / 10, 17), (1, 15), (10, 15), (100, 17), (1000, 11),
   (10000, 10), (100000, 9), (1000000, 8)]

/-- The demonstration dataset, with `sigmaV = 1` (so `log10 sigmaV = 0`) and
a parametric recompression slope `c`. -/
def demo (c : ℝ) : Data := ⟨demoPts, 1, c⟩

/-- The full result record of `getSigmaP` on the demo dataset with
`idxCr = 1/2`: the NCL line is 14 - x, the reference line is 15 - x/2, so
they intersect at log-stress -2, i.e. `sigmaP = 1/100` with void ratio
14 - (-2) = 16. -/
def demoResult : BooneResult :=
  { sigmaP := 1 / 100
    eSigmaP := 16
    p1 := (15, -1, 1, 0)
    r2TOP := 1
    eSigmaV := 15
    p2 := (14, -1)
    r2NCL := 1
    eCr := 15 }

/-- The demo dataset with the stress at index 6 replaced by the
non-positive value -1 (void ratio unchanged): index 6 lies inside the
default TOP window. -/
def demoNegPts : List (ℝ × ℝ) :=
  [(1 / 1000000, 20), (1 / 100000, 19), (1 / 10000, 18), (1 / 1000, 17),
   (1 / 100, 21), (1 / 10, 17), (-1, 15), (10, 15), (100, 17), (1000, 11),
   (10000, 10), (100000, 9), (1000000, 8)]

/-- Dataset for the C6 counterexample. -/
def demoNeg : Data := ⟨demoNegPts, 1, 1 / 2⟩

/-- The demo dataset with the void ratio at index 8 raised from 17 to 18,
so that the five points of the default TOP window do not lie on a single
cubic: dropping the last of them changes the fit. -/
def demo9Pts : List (ℝ × ℝ) :=
  [(1 / 1000000, 20), (1 / 100000, 19), (1 / 10000, 18), (1 / 1000, 17),
   (1 / 100, 21), (1 / 10, 17), (1, 15), (10, 15), (100, 18), (1000, 11),
   (10000, 10), (100000, 9), (1000000, 8)]

/-- Dataset for the C9 counterexample, `sigmaV = 1`, `idxCr = 1/2`. -/
def demo9 : Data := ⟨demo9Pts, 1, 1 / 2⟩

end

/-- Base-10 logarithm of an integer power of 10 is that integer. -/
theorem log10_zpow (n : ℤ) : log10 ((10 : ℝ) ^ n) = n := by
  unfold log10
  rw [← Real.rpow_intCast, Real.logb_rpow (by norm_num) (by norm_num)]

theorem log10_em2 : log10 ((1 : ℝ) / 100) = -2 := by
  rw [show (1 : ℝ) / 100 = (10 : ℝ) ^ (-2 : ℤ) by norm_num, log10_zpow]
  norm_num

theorem log10_em1 : log10 ((1 : ℝ) / 10) = -1 := by
  rw [show (1 : ℝ) / 10 = (10 : ℝ) ^ (-1 : ℤ) by norm_num, log10_zpow]
  norm_num

theorem log10_e0 : log10 (1 : ℝ) = 0 := Real.logb_one

theorem log10_e1 : log10 (10 : ℝ) = 1 := by
  rw [show (10 : ℝ) = (10 : ℝ) ^ (1 : ℤ) by norm_num, log10_zpow]
  norm_num

theorem log10_e2 : log10 (100 : ℝ) = 2 := by
  rw [show (100 : ℝ) = (10 : ℝ) ^ (2 : ℤ) by norm_num, log10_zpow]
  norm_num

theorem log10_e3 : log10 (1000 : ℝ) = 3 := by
  rw [show (1000 : ℝ) = (10 : ℝ) ^ (3 : ℤ) by norm_num, log10_zpow]
  norm_num

theorem log10_e4 : log10 (10000 : ℝ) = 4 := by
  rw [show (10000 : ℝ) = (10 : ℝ) ^ (4 : ℤ) by norm_num, log10_zpow]
  norm_num

theorem log10_e5 : log10 (100000 : ℝ) = 5 := by
  rw [show (100000 : ℝ) = (10 : ℝ) ^ (5 : ℤ) by norm_num, log10_zpow]
  norm_num

theorem log10_e6 : log10 (1000000 : ℝ) = 6 := by
  rw [show (1000000 : ℝ) = (10 : ℝ) ^ (6 : ℤ) by norm_num, log10_zpow]
  norm_num

/-- The default TOP window of the demo dataset is its middle five points. -/
theorem topWindow_demo (c : ℝ) : topWindow (demo c) none =
    [(1 / 100, 21), (1 / 10, 17), (1, 15), (10, 15), (100, 17)] := by
  show List.drop (pyIdx 13 (((13 / 3 : ℕ) : Int)))
      (List.take (pyIdx 13 ((((2 * 13 + 2) / 3 : ℕ)) : Int)) demoPts) = _
  rfl

/-- The default NCL window of the demo dataset is its last three points. -/
theorem nclWindow_demo (c : ℝ) : nclWindow (demo c) none =
    [(10000, 10), (100000, 9), (1000000, 8)] := by
  show List.drop (pyIdx 13 (-3)) (List.take 13 demoPts) = _
  rfl

/-- The linear fit of the demo NCL window is the exact line 14 - x. -/
theorem fitNCLw_demo :
    fitNCLw [((10000 : ℝ), (10 : ℝ)), (100000, 9), (1000000, 8)] =
      (14, -1) := by
  unfold fitNCLw polyfit1 powSum powDot
  simp only [List.map_cons, List.map_nil, List.zipWith_cons_cons,
    List.zipWith_nil_right, log10_e4, log10_e5, log10_e6, List.sum_cons,
    List.sum_nil, List.length_cons, List.length_nil]
  norm_num

/-- The cubic fit of the demo TOP window is the exact cubic
15 - x + x^2 + 0 x^3. -/
theorem fitTOPw_demo :
    fitTOPw [((1 : ℝ) / 100, (21 : ℝ)), (1 / 10, 17), (1, 15), (10, 15),
      (100, 17)] = (15, -1, 1, 0) := by
  unfold fitTOPw polyfit3 powSum powDot det4 det3
  simp only [List.map_cons, List.map_nil, List.zipWith_cons_cons,
    List.zipWith_nil_right, log10_em2, log10_em1, log10_e0, log10_e1,
    log10_e2, List.sum_cons, List.sum_nil, List.length_cons,
    List.length_nil]
  norm_num

/-- R^2 of the (exact) cubic fit on the demo TOP window is 1. -/
theorem r2TOPw_demo :
    r2TOPw [((1 : ℝ) / 100, (21 : ℝ)), (1 / 10, 17), (1, 15), (10, 15),
      (100, 17)] = 1 := by
  unfold r2TOPw r2Score meanList polyval4
  simp only [fitTOPw_demo, List.map_cons, List.map_nil,
    List.zipWith_cons_cons, List.zipWith_nil_right, log10_em2, log10_em1,
    log10_e0, log10_e1, log10_e2, List.sum_cons, List.sum_nil,
    List.length_cons, List.length_nil]
  norm_num

/-- R^2 of the (exact) linear fit on the demo NCL window is 1. -/
theorem r2NCLw_demo :
    r2NCLw [((10000 : ℝ), (10 : ℝ)), (100000, 9), (1000000, 8)] = 1 := by
  unfold r2NCLw r2Score meanList polyval2
  simp only [fitNCLw_demo, List.map_cons, List.map_nil,
    List.zipWith_cons_cons, List.zipWith_nil_right, log10_e4, log10_e5,
    log10_e6, List.sum_cons, List.sum_nil, List.length_cons,
    List.length_nil]
  norm_num

/-- Real power of 10 with exponent -2. -/
theorem rpow_neg_two : (10 : ℝ) ^ (-2 : ℝ) = 1 / 100 := by
  rw [show (-2 : ℝ) = ((-2 : ℤ) : ℝ) by norm_num, Real.rpow_intCast]
  norm_num

/-- Full evaluation of `getSigmaP` on the demo dataset with `idxCr = 1/2`. -/
theorem getSigmaP_demo :
    getSigmaP (demo (1 / 2)) none none = Except.ok demoResult := by
  unfold getSigmaP
  rw [topWindow_demo, nclWindow_demo]
  unfold computeFrom
  simp only [fitTOPw_demo, fitNCLw_demo, r2TOPw_demo, r2NCLw_demo,
    List.isEmpty_cons, demo, demoPts, List.length_cons, List.length_nil,
    polyval4, polyval2, demoResult, Except.ok.injEq, BooneResult.mk.injEq]
  norm_num [log10_e0, rpow_neg_two, log10_em2]

theorem pyIdx_neg3 (n : ℕ) : pyIdx n (-3) = n - 3 := by
  unfold pyIdx
  rw [if_pos (by norm_num)]
  omega

theorem pyIdx_ofNat (n k : ℕ) : pyIdx n ((k : ℕ) : Int) = min k n := by
  unfold pyIdx
  rw [if_neg (by omega)]
  simp

theorem pySlice_take_drop {α : Type} (l : List α) (a b : ℕ)
    (ha : a ≤ l.length) (hb : b ≤ l.length) :
    pySlice l ((a : ℕ) : Int) (some ((b : ℕ) : Int)) = (l.take b).drop a := by
  show List.drop (pyIdx l.length ((a : ℕ) : Int))
    (List.take (pyIdx l.length ((b : ℕ) : Int)) l) = _
  rw [pyIdx_ofNat, pyIdx_ofNat, min_eq_left ha, min_eq_left hb]

theorem pySlice_ofNat_none {α : Type} (l : List α) (a : ℕ) :
    pySlice l ((a : ℕ) : Int) none = l.drop a := by
  show List.drop (pyIdx l.length ((a : ℕ) : Int)) (List.take l.length l) = _
  rw [pyIdx_ofNat, List.take_length]
  rcases le_total a l.length with h | h
  · rw [min_eq_left h]
  · rw [min_eq_right h, List.drop_length, List.drop_eq_nil_of_le h]

theorem pySlice_neg3_none {α : Type} (l : List α) :
    pySlice l (-3) none = l.drop (l.length - 3) := by
  show List.drop (pyIdx l.length (-3)) (List.take l.length l) = _
  rw [pyIdx_neg3, List.take_length]

theorem findIdxGe_le (xs : List ℝ) (s : ℝ) : findIdxGe xs s ≤ xs.length := by
  induction xs with
  | nil => simp [findIdxGe]
  | cons x t ih =>
    unfold findIdxGe
    split
    · simp
    · simp only [List.length_cons]
      omega

/-- C3: with `rangeNCL` omitted the NCL window is exactly the last 3 points
of the cleaned dataset; with `rangeNCL` supplied, the start boundary is the
index `findStressIdx` returns, and the end boundary is the index
`findStressIdx` returns unless the requested end stress equals or exceeds
the dataset's maximum stress, in which case the window runs to the last
point. -/
theorem claim_C3 (d : Data) (r : ℝ × ℝ) :
    (3 ≤ d.cleaned.length →
      nclWindow d none = d.cleaned.drop (d.cleaned.length - 3) ∧
      (nclWindow d none).length = 3) ∧
    (nclIdx d (some r)).1 = ((d.findStressIdx r.1 : ℕ) : Int) ∧
    (r.2 < pyMax d.stresses →
      (nclIdx d (some r)).2 = some (((d.findStressIdx r.2 : ℕ) : Int))) ∧
    (pyMax d.stresses ≤ r.2 →
      (nclIdx d (some r)).2 = none ∧
      nclWindow d (some r) = d.cleaned.drop (d.findStressIdx r.1)) := by
  have hfst : (nclIdx d (some r)).1 = ((d.findStressIdx r.1 : ℕ) : Int) := rfl
  have hwin : nclWindow d none = d.cleaned.drop (d.cleaned.length - 3) := by
    show pySlice d.cleaned (-3) none = _
    exact pySlice_neg3_none d.cleaned
  refine ⟨fun h3 => ⟨hwin, ?_⟩, hfst, fun hlt => ?_, fun hge => ?_⟩
  · rw [hwin, List.length_drop]
    omega
  · show (if r.2 < pyMax d.stresses then
        some (((d.findStressIdx r.2 : ℕ) : Int)) else none) = _
    rw [if_pos hlt]
  · have hend : (nclIdx d (some r)).2 = none := by
      show (if r.2 < pyMax d.stresses then
          some (((d.findStressIdx r.2 : ℕ) : Int)) else none) = none
      rw [if_neg (not_lt.mpr hge)]
    refine ⟨hend, ?_⟩
    show pySlice d.cleaned (nclIdx d (some r)).1 (nclIdx d (some r)).2 = _
    rw [hend, hfst]
    exact pySlice_ofNat_none d.cleaned (d.findStressIdx r.1)

/-- C4: with `rangeTop` omitted the TOP window is the contiguous index slice
from `floor(n/3)` (inclusive) to `ceil(2n/3)` (exclusive) of the cleaned
dataset; the two index expressions are characterised as that floor and
ceiling; with `rangeTop` supplied both boundaries are the indices
`findStressIdx` returns. -/
theorem claim_C4 (d : Data) (r : ℝ × ℝ) :
    topWindow d none =
      (d.cleaned.take ((2 * d.cleaned.length + 2) / 3)).drop
        (d.cleaned.length / 3) ∧
    3 * (d.cleaned.length / 3) ≤ d.cleaned.length ∧
    d.cleaned.length < 3 * (d.cleaned.length / 3) + 3 ∧
    2 * d.cleaned.length ≤ 3 * ((2 * d.cleaned.length + 2) / 3) ∧
    (∀ k : ℕ, 2 * d.cleaned.length ≤ 3 * k →
      (2 * d.cleaned.length + 2) / 3 ≤ k) ∧
    topIdx d (some r) =
      (((d.findStressIdx r.1 : ℕ) : Int),
       some (((d.findStressIdx r.2 : ℕ) : Int))) := by
  refine ⟨?_, by omega, by omega, by omega, fun k hk => by omega, rfl⟩
  show pySlice d.cleaned (((d.cleaned.length / 3 : ℕ) : Int))
    (some ((((2 * d.cleaned.length + 2) / 3 : ℕ) : Int))) = _
  exact pySlice_take_drop d.cleaned _ _ (by omega) (by omega)

/-- Witness for C4 at the demo dataset (n = 13, window indices 4 to 9). -/
theorem claim_C4_witness :
    topWindow (demo (1 / 2)) none =
      (((demo (1 / 2)).cleaned.take
        ((2 * (demo (1 / 2)).cleaned.length + 2) / 3)).drop
        ((demo (1 / 2)).cleaned.length / 3)) ∧
    (2 * (demo (1 / 2)).cleaned.length + 2) / 3 ≤ 9 := by
  refine ⟨(claim_C4 (demo (1 / 2)) (1, 1)).1, ?_⟩
  exact (claim_C4 (demo (1 / 2)) (1, 1)).2.2.2.2.1 9
    (by norm_num [demo, demoPts])

/-- The stress column of the demo dataset. -/
theorem stresses_demo (c : ℝ) : (demo c).stresses =
    [1 / 1000000, 1 / 100000, 1 / 10000, 1 / 1000, 1 / 100, 1 / 10, 1, 10,
     100, 1000, 10000, 100000, 1000000] := by
  show List.map Prod.fst demoPts = _
  rfl

/-- The maximum stress of the demo dataset. -/
theorem pyMax_demo (c : ℝ) : pyMax (demo c).stresses = 1000000 := by
  rw [stresses_demo]
  show List.foldl max (1 / 1000000 : ℝ)
    [1 / 100000, 1 / 10000, 1 / 1000, 1 / 100, 1 / 10, 1, 10, 100, 1000,
     10000, 100000, 1000000] = 1000000
  norm_num [List.foldl, max_def]

/-- Witness for C3 at the demo dataset: the default window is the last 3
points, and a requested end stress equal to the maximum yields an open end
boundary. -/
theorem claim_C3_witness :
    nclWindow (demo (1 / 2)) none =
      (demo (1 / 2)).cleaned.drop ((demo (1 / 2)).cleaned.length - 3) ∧
    (nclWindow (demo (1 / 2)) none).length = 3 ∧
    (nclIdx (demo (1 / 2)) (some (10000, 1000000))).2 = none := by
  have h := claim_C3 (demo (1 / 2)) (10000, 1000000)
  have h3 : 3 ≤ (demo (1 / 2)).cleaned.length := by norm_num [demo, demoPts]
  have hge : pyMax (demo (1 / 2)).stresses ≤
      ((10000 : ℝ), (1000000 : ℝ)).2 := by
    rw [pyMax_demo]
  exact ⟨(h.1 h3).1, (h.1 h3).2, (h.2.2.2 hge).1⟩

/-- Base-10 logarithm inverts the real power of 10. -/
theorem log10_rpow (x : ℝ) : log10 ((10 : ℝ) ^ x) = x := by
  unfold log10
  exact Real.logb_rpow (by norm_num) (by norm_num)

/-- Inversion of a successful `getSigmaP` call: every field of the result
record is the corresponding expression of `boone.py` lines 93-118, stated on
the resolved windows. -/
theorem getSigmaP_ok_shape (d : Data) (rT rN : Option (ℝ × ℝ))
    (r : BooneResult) (h : getSigmaP d rT rN = Except.ok r) :
    r.sigmaP = (10 : ℝ) ^ ((r.p2.1 - r.eCr) / (-d.idxCr - r.p2.2)) ∧
    r.eSigmaP = polyval2 r.p2 (log10 r.sigmaP) ∧
    r.eSigmaV = polyval4 r.p1 (log10 d.sigmaV) ∧
    r.eCr = r.eSigmaV - (-d.idxCr * log10 d.sigmaV) ∧
    r.p1 = fitTOPw (topWindow d rT) ∧
    r.p2 = fitNCLw (nclWindow d rN) ∧
    r.r2TOP = r2TOPw (topWindow d rT) ∧
    r.r2NCL = r2NCLw (nclWindow d rN) := by
  unfold getSigmaP computeFrom at h
  split at h
  · exact absurd h (by simp)
  · split at h
    · exact absurd h (by simp)
    · split at h
      · exact absurd h (by simp)
      · simp only [Except.ok.injEq] at h
        subst h
        exact ⟨rfl, rfl, rfl, rfl, rfl, rfl, rfl, rfl⟩

/-- Substituting `x = (a - e) / (-c - b)` solves `a + b x = e - c x` when
the two slopes differ. -/
theorem line_solve (a b c e : ℝ) (h : -c ≠ b) :
    a + b * ((a - e) / (-c - b)) = e - c * ((a - e) / (-c - b)) := by
  have hden : -c - b ≠ 0 := sub_ne_zero.mpr h
  field_simp
  ring

/-- C5: in every successful result, `eSigmaV` is the TOP cubic evaluated at
`log10 sigmaV`, and the reference-line intercept satisfies
`eCr = eSigmaV + idxCr * log10 sigmaV`. -/
theorem claim_C5 (d : Data) (rT rN : Option (ℝ × ℝ)) (r : BooneResult)
    (h : getSigmaP d rT rN = Except.ok r) :
    r.eSigmaV = polyval4 r.p1 (log10 d.sigmaV) ∧
    r.eCr = r.eSigmaV + d.idxCr * log10 d.sigmaV := by
  obtain ⟨-, -, h3, h4, -⟩ := getSigmaP_ok_shape d rT rN r h
  exact ⟨h3, by rw [h4]; ring⟩

/-- Witness for C5 at the demo dataset. -/
theorem claim_C5_witness :
    demoResult.eSigmaV = polyval4 demoResult.p1 (log10 (demo (1 / 2)).sigmaV) ∧
    demoResult.eCr =
      demoResult.eSigmaV + (demo (1 / 2)).idxCr * log10 (demo (1 / 2)).sigmaV :=
  claim_C5 (demo (1 / 2)) none none demoResult getSigmaP_demo

/-- C1: in every successful result whose NCL slope is not `-idxCr`, the
returned pressure is `10 ^ ((p2_0 - eCr) / (-idxCr - p2_1))`, and its
base-10 logarithm solves `p2_0 + p2_1 * x = eCr - idxCr * x`. -/
theorem claim_C1 (d : Data) (rT rN : Option (ℝ × ℝ)) (r : BooneResult)
    (h : getSigmaP d rT rN = Except.ok r)
    (hslope : -d.idxCr ≠ r.p2.2) :
    r.sigmaP = (10 : ℝ) ^ ((r.p2.1 - r.eCr) / (-d.idxCr - r.p2.2)) ∧
    r.p2.1 + r.p2.2 * log10 r.sigmaP = r.eCr - d.idxCr * log10 r.sigmaP := by
  obtain ⟨h1, -⟩ := getSigmaP_ok_shape d rT rN r h
  refine ⟨h1, ?_⟩
  rw [h1, log10_rpow]
  exact line_solve _ _ _ _ hslope

/-- Witness for C1 at the demo dataset with `idxCr = 1/2`. -/
theorem claim_C1_witness :
    demoResult.sigmaP =
      (10 : ℝ) ^ ((demoResult.p2.1 - demoResult.eCr) /
        (-(demo (1 / 2)).idxCr - demoResult.p2.2)) ∧
    demoResult.p2.1 + demoResult.p2.2 * log10 demoResult.sigmaP =
      demoResult.eCr - (demo (1 / 2)).idxCr * log10 demoResult.sigmaP :=
  claim_C1 (demo (1 / 2)) none none demoResult getSigmaP_demo
    (by norm_num [demo, demoResult])

/-- C10: in every successful result whose NCL slope is not `-idxCr`, the
returned void ratio `eSigmaP` lies on the NCL fitted line at
`log10 sigmaP`, and equally on the reference line there. -/
theorem claim_C10 (d : Data) (rT rN : Option (ℝ × ℝ)) (r : BooneResult)
    (h : getSigmaP d rT rN = Except.ok r)
    (hslope : -d.idxCr ≠ r.p2.2) :
    r.eSigmaP = r.p2.1 + r.p2.2 * log10 r.sigmaP ∧
    r.eSigmaP = r.eCr - d.idxCr * log10 r.sigmaP := by
  obtain ⟨h1, h2, -⟩ := getSigmaP_ok_shape d rT rN r h
  have hval : r.eSigmaP = r.p2.1 + r.p2.2 * log10 r.sigmaP := by
    rw [h2]
    unfold polyval2
    ring
  refine ⟨hval, ?_⟩
  rw [hval, h1, log10_rpow]
  exact line_solve _ _ _ _ hslope

/-- Witness for C10 at the demo dataset with `idxCr = 1/2`. -/
theorem claim_C10_witness :
    demoResult.eSigmaP =
      demoResult.p2.1 + demoResult.p2.2 * log10 demoResult.sigmaP ∧
    demoResult.eSigmaP =
      demoResult.eCr - (demo (1 / 2)).idxCr * log10 demoResult.sigmaP :=
  claim_C10 (demo (1 / 2)) none none demoResult getSigmaP_demo
    (by norm_num [demo, demoResult])

/-- If both resolved windows are nonempty and the cleaned dataset has at
least 2 points, `getSigmaP` reaches line 117 and succeeds: its control flow
inspects nothing else (in particular neither stress signs, nor window sizes
beyond emptiness, nor the slope of the NCL fit). -/
theorem getSigmaP_ok_of (d : Data) (rT rN : Option (ℝ × ℝ))
    (h1 : (topWindow d rT).isEmpty = false)
    (h2 : (nclWindow d rN).isEmpty = false)
    (h3 : 2 ≤ d.cleaned.length) :
    exceptIsOk (getSigmaP d rT rN) = true := by
  unfold getSigmaP computeFrom
  simp only [h1, h2, Bool.false_eq_true, if_false]
  rw [if_neg (by omega)]
  rfl

/-- Counterexample to C8 as stated: on the demo dataset the call mutates
the object, storing the computed pressure in the `sigmaP` attribute. -/
theorem claim_C8_counterexample :
    (getSigmaPMethod ⟨demo (1 / 2), none⟩ none none).1 ≠
      ⟨demo (1 / 2), none⟩ := by
  have h1 : (getSigmaPMethod ⟨demo (1 / 2), none⟩ none none).1 =
      ⟨demo (1 / 2), some demoResult.sigmaP⟩ := by
    unfold getSigmaPMethod
    show (match getSigmaP (demo (1 / 2)) none none with
      | Except.ok r => ((⟨demo (1 / 2), some r.sigmaP⟩ : Boone), Except.ok r)
      | Except.error e =>
          ((⟨demo (1 / 2), none⟩ : Boone), Except.error e)).1 = _
    rw [getSigmaP_demo]
  intro h
  rw [h1] at h
  have h2 : (some demoResult.sigmaP : Option ℝ) = none :=
    congrArg Boone.sigmaP h
  exact Option.noConfusion h2

/-- C8 amended: the call leaves the dataset untouched and its outcome is a
pure function of the data and the ranges (independent of any previously
stored attribute); the only mutation is that a successful call stores the
computed `sigmaP` attribute, and a failing call leaves the object exactly
as it was. -/
theorem claim_C8_amended (b : Boone) (rT rN : Option (ℝ × ℝ)) :
    ((getSigmaPMethod b rT rN).1).data = b.data ∧
    (getSigmaPMethod b rT rN).2 = getSigmaP b.data rT rN ∧
    ((getSigmaPMethod b rT rN).1).sigmaP =
      (match getSigmaP b.data rT rN with
        | Except.ok r => some r.sigmaP
        | Except.error _ => b.sigmaP) := by
  unfold getSigmaPMethod
  cases h : getSigmaP b.data rT rN with
  | ok r => exact ⟨rfl, rfl, rfl⟩
  | error e => exact ⟨rfl, rfl, rfl⟩

/-- The NCL fit of the demo dataset (any `idxCr`). -/
theorem nclFit_demo (c : ℝ) :
    fitNCLw (nclWindow (demo c) none) = (14, -1) := by
  rw [nclWindow_demo, fitNCLw_demo]

/-- Counterexample to C2 as stated: with `idxCr = 1`, the fitted NCL slope
equals `-idxCr` (parallel lines), yet `getSigmaP` succeeds instead of
raising; the division by the vanishing denominator goes unchecked. -/
theorem claim_C2_counterexample :
    -(demo 1).idxCr = (fitNCLw (nclWindow (demo 1) none)).2 ∧
    exceptIsOk (getSigmaP (demo 1) none none) = true := by
  constructor
  · rw [nclFit_demo]
    norm_num [demo]
  · exact getSigmaP_ok_of (demo 1) none none
      (by rw [topWindow_demo]; rfl) (by rw [nclWindow_demo]; rfl)
      (by norm_num [demo, demoPts])

/-- C2 amended: when the NCL slope equals `-idxCr` the computation still
returns a result (no raise); and whenever additionally the two intercepts
differ, no log-stress satisfies both line equations, so the returned value
cannot be an intersection. -/
theorem claim_C2_amended (d : Data) (rT rN : Option (ℝ × ℝ))
    (h1 : (topWindow d rT).isEmpty = false)
    (h2 : (nclWindow d rN).isEmpty = false)
    (h3 : 2 ≤ d.cleaned.length)
    (hpar : -d.idxCr = (fitNCLw (nclWindow d rN)).2)
    (hne : (fitNCLw (nclWindow d rN)).1 ≠
      polyval4 (fitTOPw (topWindow d rT)) (log10 d.sigmaV) -
        (-d.idxCr * log10 d.sigmaV)) :
    exceptIsOk (getSigmaP d rT rN) = true ∧
    ∀ x : ℝ,
      (fitNCLw (nclWindow d rN)).1 + (fitNCLw (nclWindow d rN)).2 * x ≠
      (polyval4 (fitTOPw (topWindow d rT)) (log10 d.sigmaV) -
        (-d.idxCr * log10 d.sigmaV)) - d.idxCr * x := by
  refine ⟨getSigmaP_ok_of d rT rN h1 h2 h3, fun x hx => hne ?_⟩
  rw [← hpar] at hx
  linarith

/-- Witness for the amended C2, at the demo dataset with `idxCr = 1`
(parallel lines, distinct intercepts 14 and 15), sampled at x = 5. -/
theorem claim_C2_witness :
    exceptIsOk (getSigmaP (demo 1) none none) = true ∧
    (fitNCLw (nclWindow (demo 1) none)).1 +
        (fitNCLw (nclWindow (demo 1) none)).2 * 5 ≠
      (polyval4 (fitTOPw (topWindow (demo 1) none))
          (log10 (demo 1).sigmaV) -
        (-(demo 1).idxCr * log10 (demo 1).sigmaV)) -
        (demo 1).idxCr * 5 := by
  have h := claim_C2_amended (demo 1) none none
    (by rw [topWindow_demo]; rfl) (by rw [nclWindow_demo]; rfl)
    (by norm_num [demo, demoPts])
    (by rw [nclFit_demo]; norm_num [demo])
    (by rw [nclFit_demo, topWindow_demo, fitTOPw_demo]
        norm_num [demo, polyval4, log10_e0])
  exact ⟨h.1, h.2 5⟩

theorem topWindow_demoNeg : topWindow demoNeg none =
    [(1 / 100, 21), (1 / 10, 17), (-1, 15), (10, 15), (100, 17)] := by
  show List.drop (pyIdx 13 (((13 / 3 : ℕ) : Int)))
      (List.take (pyIdx 13 ((((2 * 13 + 2) / 3 : ℕ)) : Int)) demoNegPts) = _
  rfl

theorem nclWindow_demoNeg : nclWindow demoNeg none =
    [(10000, 10), (100000, 9), (1000000, 8)] := by
  show List.drop (pyIdx 13 (-3)) (List.take 13 demoNegPts) = _
  rfl

/-- Counterexample to C6 as stated: a non-positive stress (-1) is selected
into the TOP fit window, yet `getSigmaP` raises nothing and completes. -/
theorem claim_C6_counterexample :
    ((-1 : ℝ), (15 : ℝ)) ∈ topWindow demoNeg none ∧
    ((-1 : ℝ) ≤ 0) ∧
    exceptIsOk (getSigmaP demoNeg none none) = true := by
  refine ⟨?_, by norm_num, ?_⟩
  · rw [topWindow_demoNeg]
    simp
  · exact getSigmaP_ok_of demoNeg none none
      (by rw [topWindow_demoNeg]; rfl) (by rw [nclWindow_demoNeg]; rfl)
      (by norm_num [demoNeg, demoNegPts])

/-- C6 amended: `getSigmaP` performs no domain check at all - on no input
does it fail with `DomainError` (the logarithm of a non-positive stress is
taken regardless; in floating point it merely warns and yields `nan`). -/
theorem claim_C6_amended (d : Data) (rT rN : Option (ℝ × ℝ)) :
    getSigmaP d rT rN ≠ Except.error PyErr.domainError := by
  intro h
  unfold getSigmaP computeFrom at h
  split at h
  · simp at h
  · split at h
    · simp at h
    · split at h
      · simp at h
      · simp at h

/-- Witness for the amended C6 at the C6 counterexample input. -/
theorem claim_C6_witness :
    getSigmaP demoNeg none none ≠ Except.error PyErr.domainError :=
  claim_C6_amended demoNeg none none

/-- Index lookup of the maximum stress in the demo dataset. -/
theorem findStressIdx_demo_e6 (c : ℝ) :
    (demo c).findStressIdx 1000000 = 12 := by
  unfold Data.findStressIdx
  rw [stresses_demo]
  norm_num [findIdxGe]

/-- A supplied NCL range of (max, max) resolves to a single-point window:
the start boundary resolves to the last index and the end boundary is open
because the requested end stress is not strictly below the maximum. -/
theorem nclWindow_demo_end (c : ℝ) :
    nclWindow (demo c) (some (1000000, 1000000)) = [(1000000, 8)] := by
  have h2 : (nclIdx (demo c) (some (1000000, 1000000))).2 = none := by
    show (if (1000000 : ℝ) < pyMax (demo c).stresses then
        some (((demo c).findStressIdx (1000000 : ℝ) : ℕ) : Int)
      else none) = none
    rw [if_neg]
    rw [pyMax_demo]
    norm_num
  have h1 : (nclIdx (demo c) (some (1000000, 1000000))).1 =
      ((12 : ℕ) : Int) := by
    show (((demo c).findStressIdx (1000000 : ℝ) : ℕ) : Int) = _
    rw [findStressIdx_demo_e6]
  show pySlice (demo c).cleaned (nclIdx (demo c) (some (1000000, 1000000))).1
    (nclIdx (demo c) (some (1000000, 1000000))).2 = _
  rw [h1, h2, pySlice_ofNat_none]
  show List.drop 12 demoPts = _
  rfl

/-- Counterexample to C7 as stated: a supplied NCL range resolving to a
single point (fewer than the 2 points a linear fit needs), on which
`getSigmaP` succeeds instead of raising `InvalidRangeError`. -/
theorem claim_C7_counterexample :
    (nclWindow (demo (1 / 2)) (some (1000000, 1000000))).length = 1 ∧
    exceptIsOk (getSigmaP (demo (1 / 2)) none
      (some (1000000, 1000000))) = true := by
  refine ⟨by rw [nclWindow_demo_end]; rfl, ?_⟩
  exact getSigmaP_ok_of (demo (1 / 2)) none (some (1000000, 1000000))
    (by rw [topWindow_demo]; rfl) (by rw [nclWindow_demo_end]; rfl)
    (by norm_num [demo, demoPts])

/-- C7 amended: `getSigmaP` never fails with `InvalidRangeError`; a window
of any nonzero size - in particular a single point - is passed to the
(then degenerate) fit, and the computation completes. -/
theorem claim_C7_amended (d : Data) (rT rN : Option (ℝ × ℝ)) :
    getSigmaP d rT rN ≠ Except.error PyErr.invalidRangeError ∧
    ((topWindow d rT).isEmpty = false → (nclWindow d rN).isEmpty = false →
      2 ≤ d.cleaned.length → exceptIsOk (getSigmaP d rT rN) = true) := by
  constructor
  · intro h
    unfold getSigmaP computeFrom at h
    split at h
    · simp at h
    · split at h
      · simp at h
      · split at h
        · simp at h
        · simp at h
  · exact fun h1 h2 h3 => getSigmaP_ok_of d rT rN h1 h2 h3

/-- Witness for the amended C7 at the single-point-window input. -/
theorem claim_C7_witness :
    getSigmaP (demo (1 / 2)) none (some (1000000, 1000000)) ≠
      Except.error PyErr.invalidRangeError ∧
    exceptIsOk (getSigmaP (demo (1 / 2)) none
      (some (1000000, 1000000))) = true :=
  ⟨(claim_C7_amended (demo (1 / 2)) none (some (1000000, 1000000))).1,
   (claim_C7_amended (demo (1 / 2)) none (some (1000000, 1000000))).2
     (by rw [topWindow_demo]; rfl) (by rw [nclWindow_demo_end]; rfl)
     (by norm_num [demo, demoPts])⟩

/-- A successful outcome is `Except.ok` of something. -/
theorem exceptIsOk_exists {ε α : Type} (x : Except ε α)
    (h : exceptIsOk x = true) : ∃ r, x = Except.ok r := by
  cases x with
  | ok r => exact ⟨r, rfl⟩
  | error e => exact absurd h (by simp [exceptIsOk])

theorem stresses_demo9 : demo9.stresses =
    [1 / 1000000, 1 / 100000, 1 / 10000, 1 / 1000, 1 / 100, 1 / 10, 1, 10,
     100, 1000, 10000, 100000, 1000000] := by
  show List.map Prod.fst demo9Pts = _
  rfl

theorem pyMax_demo9 : pyMax demo9.stresses = 1000000 := by
  rw [stresses_demo9]
  show List.foldl max (1 / 1000000 : ℝ)
    [1 / 100000, 1 / 10000, 1 / 1000, 1 / 100, 1 / 10, 1, 10, 100, 1000,
     10000, 100000, 1000000] = 1000000
  norm_num [List.foldl, max_def]

theorem findStressIdx_demo9_em2 : demo9.findStressIdx (1 / 100) = 4 := by
  unfold Data.findStressIdx
  rw [stresses_demo9]
  norm_num [findIdxGe]

theorem findStressIdx_demo9_e2 : demo9.findStressIdx 100 = 8 := by
  unfold Data.findStressIdx
  rw [stresses_demo9]
  norm_num [findIdxGe]

theorem findStressIdx_demo9_e3 : demo9.findStressIdx 1000 = 9 := by
  unfold Data.findStressIdx
  rw [stresses_demo9]
  norm_num [findIdxGe]

theorem findStressIdx_demo9_e4 : demo9.findStressIdx 10000 = 10 := by
  unfold Data.findStressIdx
  rw [stresses_demo9]
  norm_num [findIdxGe]

/-- The default TOP window of `demo9` (5 points, the last off the cubic). -/
theorem topWindow_demo9_default : topWindow demo9 none =
    [(1 / 100, 21), (1 / 10, 17), (1, 15), (10, 15), (100, 18)] := by
  show List.drop (pyIdx 13 (((13 / 3 : ℕ) : Int)))
      (List.take (pyIdx 13 ((((2 * 13 + 2) / 3 : ℕ)) : Int)) demo9Pts) = _
  rfl

/-- The default NCL window of `demo9`. -/
theorem nclWindow_demo9_default : nclWindow demo9 none =
    [(10000, 10), (100000, 9), (1000000, 8)] := by
  show List.drop (pyIdx 13 (-3)) (List.take 13 demo9Pts) = _
  rfl

/-- Supplying the default TOP window's own stress span (1/100 to 100)
resolves its end to index 8, which exclusive slicing drops: only 4 of the 5
default points remain. -/
theorem topWindow_demo9_span : topWindow demo9 (some (1 / 100, 100)) =
    [(1 / 100, 21), (1 / 10, 17), (1, 15), (10, 15)] := by
  have h1 : (topIdx demo9 (some (1 / 100, 100))).1 = ((4 : ℕ) : Int) := by
    show ((demo9.findStressIdx ((1 : ℝ) / 100) : ℕ) : Int) = _
    rw [findStressIdx_demo9_em2]
  have h2 : (topIdx demo9 (some (1 / 100, 100))).2 =
      some ((8 : ℕ) : Int) := by
    show some ((demo9.findStressIdx (100 : ℝ) : ℕ) : Int) = _
    rw [findStressIdx_demo9_e2]
  show pySlice demo9.cleaned (topIdx demo9 (some (1 / 100, 100))).1
    (topIdx demo9 (some (1 / 100, 100))).2 = _
  rw [h1, h2, pySlice_take_drop _ 4 8 (by norm_num [demo9, demo9Pts])
    (by norm_num [demo9, demo9Pts])]
  show List.drop 4 (List.take 8 demo9Pts) = _
  rfl

/-- Supplying the default NCL window's own stress span reproduces the
default window (the end stress equals the maximum, so the end is open). -/
theorem nclWindow_demo9_span :
    nclWindow demo9 (some (10000, 1000000)) =
      [(10000, 10), (100000, 9), (1000000, 8)] := by
  have h2 : (nclIdx demo9 (some (10000, 1000000))).2 = none := by
    show (if (1000000 : ℝ) < pyMax demo9.stresses then
        some ((demo9.findStressIdx (1000000 : ℝ) : ℕ) : Int)
      else none) = none
    rw [if_neg]
    rw [pyMax_demo9]
    norm_num
  have h1 : (nclIdx demo9 (some (10000, 1000000))).1 =
      ((10 : ℕ) : Int) := by
    show ((demo9.findStressIdx (10000 : ℝ) : ℕ) : Int) = _
    rw [findStressIdx_demo9_e4]
  show pySlice demo9.cleaned (nclIdx demo9 (some (10000, 1000000))).1
    (nclIdx demo9 (some (10000, 1000000))).2 = _
  rw [h1, h2, pySlice_ofNat_none]
  show List.drop 10 demo9Pts = _
  rfl

/-- Cubic fit of the 4-point truncated window: the exact interpolating
cubic 15 - x + x^2 (zero cubic term). -/
theorem fitTOPw_demo9_4pt :
    fitTOPw [((1 : ℝ) / 100, (21 : ℝ)), (1 / 10, 17), (1, 15), (10, 15)] =
      (15, -1, 1, 0) := by
  unfold fitTOPw polyfit3 powSum powDot det4 det3
  simp only [List.map_cons, List.map_nil, List.zipWith_cons_cons,
    List.zipWith_nil_right, log10_em2, log10_em1, log10_e0, log10_e1,
    List.sum_cons, List.sum_nil, List.length_cons, List.length_nil]
  norm_num

/-- Cubic least-squares fit of the full 5-point default window of `demo9`. -/
theorem fitTOPw_demo9_5pt :
    fitTOPw [((1 : ℝ) / 100, (21 : ℝ)), (1 / 10, 17), (1, 15), (10, 15),
      (100, 18)] = (522 / 35, -13 / 12, 8 / 7, 1 / 12) := by
  unfold fitTOPw polyfit3 powSum powDot det4 det3
  simp only [List.map_cons, List.map_nil, List.zipWith_cons_cons,
    List.zipWith_nil_right, log10_em2, log10_em1, log10_e0, log10_e1,
    log10_e2, List.sum_cons, List.sum_nil, List.length_cons,
    List.length_nil]
  norm_num

/-- The stress span selected by the default TOP logic on `demo9`: first and
last stresses of the default window. -/
theorem defaultTopSpan_demo9 : defaultTopSpan demo9 = (1 / 100, 100) := by
  show (demo9.stresses.getD 4 0, demo9.stresses.getD 8 0) = _
  rw [stresses_demo9]
  rfl

/-- The stress span selected by the default NCL logic on `demo9`. -/
theorem defaultNclSpan_demo9 :
    defaultNclSpan demo9 = (10000, 1000000) := by
  show (demo9.stresses.getD 10 0, demo9.stresses.getD 12 0) = _
  rw [stresses_demo9]
  rfl

/-- Counterexample to C9 as stated: on `demo9`, calling `getSigmaP` with
`rangeTop` and `rangeNCL` set to exactly the stress intervals the default
logic selects produces a different Result than omitting them - the
resolved TOP window loses its last point to exclusive-end slicing and the
cubic fit (hence the whole Result) changes. -/
theorem claim_C9_counterexample :
    getSigmaP demo9 (some (defaultTopSpan demo9))
      (some (defaultNclSpan demo9)) ≠ getSigmaP demo9 none none := by
  rw [defaultTopSpan_demo9, defaultNclSpan_demo9]
  obtain ⟨r1, hr1⟩ := exceptIsOk_exists _
    (getSigmaP_ok_of demo9 (some (1 / 100, 100)) (some (10000, 1000000))
      (by rw [topWindow_demo9_span]; rfl)
      (by rw [nclWindow_demo9_span]; rfl)
      (by norm_num [demo9, demo9Pts]))
  obtain ⟨r2, hr2⟩ := exceptIsOk_exists _
    (getSigmaP_ok_of demo9 none none
      (by rw [topWindow_demo9_default]; rfl)
      (by rw [nclWindow_demo9_default]; rfl)
      (by norm_num [demo9, demo9Pts]))
  intro h
  rw [hr1, hr2] at h
  have h12 : r1 = r2 := by
    injection h
  have s1 := (getSigmaP_ok_shape demo9 (some (1 / 100, 100))
    (some (10000, 1000000)) r1 hr1).2.2.2.2.1
  have s2 := (getSigmaP_ok_shape demo9 none none r2 hr2).2.2.2.2.1
  have hp1 : r1.p1 = r2.p1 := by rw [h12]
  rw [s1, s2, topWindow_demo9_span, topWindow_demo9_default,
    fitTOPw_demo9_4pt, fitTOPw_demo9_5pt] at hp1
  have h15 : (15 : ℝ) = 522 / 35 := congrArg Prod.fst hp1
  norm_num at h15

/-- C9 amended: default-equivalence does hold for ranges that resolve to
the default indices - i.e. when the supplied TOP end boundary resolves to
`ceil(2n/3)`, the first index beyond the default window (not the last index
inside it), the supplied TOP start to `floor(n/3)`, the supplied NCL start
to `n - 3`, and the supplied NCL end is at least the maximum stress. -/
theorem claim_C9_amended (d : Data) (a b a2 b2 : ℝ)
    (hTa : d.findStressIdx a = d.cleaned.length / 3)
    (hTb : d.findStressIdx b = (2 * d.cleaned.length + 2) / 3)
    (hNa : d.findStressIdx a2 = d.cleaned.length - 3)
    (hNb : pyMax d.stresses ≤ b2) :
    getSigmaP d (some (a, b)) (some (a2, b2)) = getSigmaP d none none := by
  have hT : topWindow d (some (a, b)) = topWindow d none := by
    show pySlice d.cleaned ((d.findStressIdx a : ℕ) : Int)
        (some ((d.findStressIdx b : ℕ) : Int)) =
      pySlice d.cleaned ((d.cleaned.length / 3 : ℕ) : Int)
        (some (((2 * d.cleaned.length + 2) / 3 : ℕ) : Int))
    rw [hTa, hTb]
  have hN : nclWindow d (some (a2, b2)) = nclWindow d none := by
    have hend : (nclIdx d (some (a2, b2))).2 = none := by
      show (if b2 < pyMax d.stresses then
          some ((d.findStressIdx b2 : ℕ) : Int) else none) = none
      rw [if_neg (not_lt.mpr hNb)]
    show pySlice d.cleaned (nclIdx d (some (a2, b2))).1
      (nclIdx d (some (a2, b2))).2 = pySlice d.cleaned (-3) none
    rw [hend]
    have hfst : (nclIdx d (some (a2, b2))).1 =
        ((d.cleaned.length - 3 : ℕ) : Int) := by
      show ((d.findStressIdx a2 : ℕ) : Int) = _
      rw [hNa]
    rw [hfst, pySlice_ofNat_none, pySlice_neg3_none]
  unfold getSigmaP
  rw [hT, hN]

/-- Witness for the amended C9 on `demo9`: boundary stresses 1/100 and 1000
resolve to the default TOP indices 4 and 9, and 10000 and 1000000 resolve
the NCL window to the default last-three window; the two calls coincide. -/
theorem claim_C9_witness :
    getSigmaP demo9 (some (1 / 100, 1000)) (some (10000, 1000000)) =
      getSigmaP demo9 none none :=
  claim_C9_amended demo9 (1 / 100) 1000 10000 1000000
    (by rw [findStressIdx_demo9_em2]; norm_num [demo9, demo9Pts])
    (by rw [findStressIdx_demo9_e3]; norm_num [demo9, demo9Pts])
    (by rw [findStressIdx_demo9_e4]; norm_num [demo9, demo9Pts])
    (by rw [pyMax_demo9])

end PySimGap
